import Mathlib

/-!
Verification of the GramDominator ingestion worker.

This file shallowly embeds the core of the TikTok trend-ingestion worker
(`src/worker/tiktok.ts` and `src/worker/ai-tagger.ts`): the circuit breaker,
the acquisition orchestrator `scrapeTikTokTrends` with its retry/backoff and
proxy-grid/stale fallbacks, the response parsing helpers, the batch
normalizer `normalizeTrends`, the tag-quota logic of `runPipeline`, and the
growth calculator.  JavaScript numbers that are used as counts/ranks are
modelled as `Int` (the code only adds, compares and passes them through);
the one place where fractional arithmetic matters (the K/M/B usage-count
decoder, which calls `parseFloat` and `Math.round`) is modelled over `ℚ`
with Mathlib's `round` (`Math.round x = ⌊x + 1/2⌋`, which agrees with
`round` on all rationals).  Asynchronous effects are modelled by explicit
state passing; operations that can reject are modelled in `Except String`.
Module-level mutable state (the two circuit breakers) is passed explicitly.

The file is organised as: all definitions (the embedding), then all
theorems.
-/

/-- Model of `TrendItem` from `src/worker/types`, as used throughout the
worker. -/
structure TrendItem where
  id : String
  rank : Int
  title : String
  author : String
  play_count : Int
  cover_url : String
deriving Repr, DecidableEq

/-!
Section: normalizeTrends (src/worker/ai-tagger.ts, pipeline half).

```js
function normalizeTrends(items) {
  const deduped = new Map();
  items.forEach((item) => { if (!deduped.has(item.id)) deduped.set(item.id, item); });
  return Array.from(deduped.values())
    .sort((a, b) => a.rank - b.rank)
    .slice(0, 50)
    .map((item, index) => ({ ...item, rank: index + 1 }));
}
```

The `Map` keeps first occurrences in insertion order; `Array.prototype.sort`
is stable, so it is modelled by the (stable) `List.insertionSort` under the
total preorder that compares ranks.
-/

/-- Dedup step of `normalizeTrends`: the first occurrence of each id wins;
`seen` is the set of ids already kept. -/
def dedupeById : List TrendItem → List String → List TrendItem
  | [], _ => []
  | item :: rest, seen =>
      if item.id ∈ seen then dedupeById rest seen
      else item :: dedupeById rest (item.id :: seen)

/-- The comparator `(a, b) => a.rank - b.rank`, as a preorder on items. -/
def rankLE (a b : TrendItem) : Prop := a.rank ≤ b.rank

instance : DecidableRel rankLE := fun a b => inferInstanceAs (Decidable (a.rank ≤ b.rank))

instance : IsTotal TrendItem rankLE := ⟨fun a b => le_total a.rank b.rank⟩

instance : IsTrans TrendItem rankLE := ⟨fun _ _ _ hab hbc => le_trans hab hbc⟩

/-- Re-ranking step `.map((item, index) => ({ ...item, rank: index + 1 }))`,
shared verbatim by `normalizeTrends` and the stale-data fallback branches of
`scrapeTikTokTrends`. -/
def reRank (items : List TrendItem) : List TrendItem :=
  items.enum.map (fun p => { p.2 with rank := (p.1 : Int) + 1 })

/-- Model of `normalizeTrends`: dedupe by id, stable-sort by rank, truncate
to 50, re-rank densely. -/
def normalizeTrends (items : List TrendItem) : List TrendItem :=
  reRank (((dedupeById items []).insertionSort rankLE).take 50)

/-!
Section: circuit breaker (src/worker/tiktok.ts, lines 57-151).

`Date.now()` is passed explicitly as `now : Nat`.  `canExecuteCircuit`
mutates the breaker when the timeout has elapsed, so it is modelled as
returning the boolean together with the updated state.
-/

def CIRCUIT_THRESHOLD : Nat := 5

def CIRCUIT_TIMEOUT : Nat := 300000

structure CircuitBreakerState where
  isOpen : Bool
  failureCount : Nat
  lastFailureTime : Nat
  nextAttemptTime : Nat
deriving Repr, DecidableEq

/-- Model of `canExecuteCircuit`: closed breakers pass; open breakers pass
(and are reset to closed with `failureCount = 0`) once
`now >= nextAttemptTime`. -/
def canExecuteCircuit (breaker : CircuitBreakerState) (now : Nat) :
    Bool × CircuitBreakerState :=
  if breaker.isOpen = false then (true, breaker)
  else if breaker.nextAttemptTime ≤ now then
    (true, { breaker with isOpen := false, failureCount := 0 })
  else (false, breaker)

/-- Model of `recordCircuitSuccess`: unconditionally closes the breaker. -/
def recordCircuitSuccess (breaker : CircuitBreakerState) : CircuitBreakerState :=
  { breaker with failureCount := 0, isOpen := false }

/-- Model of `recordCircuitFailure`: increments the count; at the threshold,
opens the breaker and schedules the next attempt `CIRCUIT_TIMEOUT` later. -/
def recordCircuitFailure (breaker : CircuitBreakerState) (now : Nat) :
    CircuitBreakerState :=
  let b := { breaker with
    failureCount := breaker.failureCount + 1
    lastFailureTime := now }
  if CIRCUIT_THRESHOLD ≤ b.failureCount then
    { b with isOpen := true, nextAttemptTime := now + CIRCUIT_TIMEOUT }
  else b

/-- Five consecutive `recordCircuitFailure` calls at times `t1..t5`. -/
def fiveFailures (b : CircuitBreakerState) (t1 t2 t3 t4 t5 : Nat) :
    CircuitBreakerState :=
  recordCircuitFailure
    (recordCircuitFailure
      (recordCircuitFailure
        (recordCircuitFailure (recordCircuitFailure b t1) t2) t3) t4) t5

/-!
Section: acquisition orchestrator (src/worker/tiktok.ts, lines 161-372).

`scrapeTikTokTrends` sequences Primary (puppeteer, up to `MAX_RETRIES`
attempts with exponential backoff) → Secondary (proxy grid, one attempt) →
stale data.  The injectable behaviours of the environment are collected in
`ScrapeEnv`: the outcome of each primary attempt and of the proxy-grid
fetch is either a resolved item list (`length = 0` models the
"returned empty results" branch) or a rejection (`thrown`).  `getStaleData`
never throws in the source (it catches internally and returns `[]`), so the
stale store is a plain list.  `cacheResults` and `sendAlert` swallow their
own errors and do not influence the data flow, so they are not modelled.
The result records the returned items, both final breaker states, and the
backoff delays slept (in order).
-/

def MAX_RETRIES : Nat := 3

def INITIAL_RETRY_DELAY : Nat := 1000

/-- Model of `calculateRetryDelay`: `min(1000 * 2^attempt, 10000)`. -/
def calculateRetryDelay (attempt : Nat) : Nat :=
  min (INITIAL_RETRY_DELAY * 2 ^ attempt) 10000

inductive AttemptOutcome where
  | resolved (items : List TrendItem)
  | thrown
deriving Repr, DecidableEq

structure ScrapeEnv where
  proxyGridSecret : Bool
  slackWebhookUrl : Bool
  staleData : List TrendItem
  primaryOutcome : Nat → AttemptOutcome
  proxyGridOutcome : AttemptOutcome

structure ScrapeOptions where
  forceProxyGrid : Bool := false
  useStaleFallback : Bool := false

structure ScrapeResult where
  items : List TrendItem
  puppeteerBreaker : CircuitBreakerState
  proxyGridBreaker : CircuitBreakerState
  sleeps : List Nat
deriving Repr, DecidableEq

/-- Model of the `for (let attempt = 1; attempt <= MAX_RETRIES; attempt++)`
loop of `scrapeTikTokTrends`, with `fuel` the number of attempts remaining.
A non-empty resolved result records a success and returns; an empty resolved
result only logs and moves on (no failure recorded, no sleep); a thrown
attempt records a failure and sleeps `calculateRetryDelay(attempt - 1)`
unless it was the final attempt. -/
def primaryAttemptsAux (env : ScrapeEnv) (now : Nat) :
    Nat → Nat → CircuitBreakerState → List Nat →
      Option (List TrendItem) × CircuitBreakerState × List Nat
  | 0, _, breaker, sleeps => (none, breaker, sleeps)
  | fuel + 1, attempt, breaker, sleeps =>
      match env.primaryOutcome attempt with
      | .resolved data =>
          if 0 < data.length then (some data, recordCircuitSuccess breaker, sleeps)
          else primaryAttemptsAux env now fuel (attempt + 1) breaker sleeps
      | .thrown =>
          if attempt < MAX_RETRIES then
            primaryAttemptsAux env now fuel (attempt + 1)
              (recordCircuitFailure breaker now)
              (sleeps ++ [calculateRetryDelay (attempt - 1)])
          else
            primaryAttemptsAux env now fuel (attempt + 1)
              (recordCircuitFailure breaker now) sleeps

def primaryAttempts (env : ScrapeEnv) (now : Nat) (breaker : CircuitBreakerState) :
    Option (List TrendItem) × CircuitBreakerState × List Nat :=
  primaryAttemptsAux env now MAX_RETRIES 1 breaker []

/-- Model of `scrapeWithProxyGridFallback`: secondary acquisition plus the
stale-data last resort (src/worker/tiktok.ts, lines 253-372). -/
def scrapeWithProxyGridFallback (env : ScrapeEnv) (now : Nat)
    (pB proxB : CircuitBreakerState) (sleeps : List Nat) : ScrapeResult :=
  if env.proxyGridSecret = false then ⟨[], pB, proxB, sleeps⟩
  else
    let check := canExecuteCircuit proxB now
    if check.1 = false then
      if 0 < env.staleData.length then ⟨reRank env.staleData, pB, check.2, sleeps⟩
      else ⟨[], pB, check.2, sleeps⟩
    else
      match env.proxyGridOutcome with
      | .resolved data =>
          if 0 < data.length then ⟨data, pB, recordCircuitSuccess check.2, sleeps⟩
          else if 0 < env.staleData.length then
            ⟨reRank env.staleData, pB, recordCircuitFailure check.2 now, sleeps⟩
          else ⟨[], pB, recordCircuitFailure check.2 now, sleeps⟩
      | .thrown =>
          if 0 < env.staleData.length then
            ⟨reRank env.staleData, pB, recordCircuitFailure check.2 now, sleeps⟩
          else ⟨[], pB, recordCircuitFailure check.2 now, sleeps⟩

/-- Model of `scrapeTikTokTrends` (src/worker/tiktok.ts, lines 161-251). -/
def scrapeTikTokTrends (env : ScrapeEnv) (opts : ScrapeOptions) (now : Nat)
    (pB proxB : CircuitBreakerState) : ScrapeResult :=
  if 0 < env.staleData.length ∧ opts.useStaleFallback = true then
    ⟨reRank env.staleData, pB, proxB, []⟩
  else
    let check := canExecuteCircuit pB now
    if check.1 = false then scrapeWithProxyGridFallback env now check.2 proxB []
    else if opts.forceProxyGrid = true then
      scrapeWithProxyGridFallback env now check.2 proxB []
    else
      let pr := primaryAttempts env now check.2
      match pr.1 with
      | some items => ⟨items, pr.2.1, proxB, pr.2.2⟩
      | none => scrapeWithProxyGridFallback env now pr.2.1 proxB pr.2.2

/-- The module-initial breaker state (all fields zero, closed). -/
def freshBreaker : CircuitBreakerState := ⟨false, 0, 0, 0⟩

/-- Environment for C4: each primary attempt `i` throws when `bi` is true
and resolves with an empty list otherwise; the proxy grid is unconfigured,
so the fallback returns `[]` without touching the primary breaker. -/
def mixedPrimaryEnv (b1 b2 b3 : Bool) : ScrapeEnv where
  proxyGridSecret := false
  slackWebhookUrl := false
  staleData := []
  primaryOutcome := fun n =>
    if n = 1 then (if b1 then .thrown else .resolved [])
    else if n = 2 then (if b2 then .thrown else .resolved [])
    else (if b3 then .thrown else .resolved [])
  proxyGridOutcome := .thrown

/-- Environment for C5: proxy grid configured, every primary attempt and the
proxy-grid attempt throw, and the stale store holds `stale`. -/
def allFailEnv (stale : List TrendItem) : ScrapeEnv where
  proxyGridSecret := true
  slackWebhookUrl := true
  staleData := stale
  primaryOutcome := fun _ => .thrown
  proxyGridOutcome := .thrown

/-- Ten concrete stale items (ranks deliberately not 1..10). -/
def staleTen : List TrendItem :=
  [⟨"s1", 7, "t1", "a1", 10, ""⟩, ⟨"s2", 3, "t2", "a2", 20, ""⟩,
   ⟨"s3", 9, "t3", "a3", 30, ""⟩, ⟨"s4", 1, "t4", "a4", 40, ""⟩,
   ⟨"s5", 2, "t5", "a5", 50, ""⟩, ⟨"s6", 8, "t6", "a6", 60, ""⟩,
   ⟨"s7", 4, "t7", "a7", 70, ""⟩, ⟨"s8", 6, "t8", "a8", 80, ""⟩,
   ⟨"s9", 5, "t9", "a9", 90, ""⟩, ⟨"s10", 10, "t10", "a10", 100, ""⟩]

/-!
Section: growth calculator.

The pipeline (src/src/worker/ai-tagger.ts, line 620) calls
`calculateGrowthRate(item, history)` imported from `./worker/growth`, a
file that is not among the provided sources; only its caller is.  It is
therefore modelled from the spec (section 4.5).
-/

/-- Model of `HistoryRow` from `src/worker/types`: one append-only snapshot
of `(play_count, rank)` for an id. -/
structure HistoryRow where
  id : String
  play_count : Int
  rank : Int
  snapshot_at : Int
deriving Repr, DecidableEq

/-- Modelled from the spec: `calculateGrowthRate` lives in
`src/worker/growth.ts`, which is missing from the provided sources (only
its caller in `ai-tagger.ts` is present).  Per spec section 4.5: no previous
snapshot means growth 0 (no momentum signal); when the previous play count
is positive, growth is the percentage change in play count; otherwise a
rank-improvement signal is used whose exact scaling is an "implementation
choice" constrained to be monotone (smaller rank number means higher
growth) and bounded — modelled as 10 points per rank step clamped to
`[-100, 100]`. -/
def calculateGrowthRate (current : TrendItem) (previous : Option HistoryRow) : ℚ :=
  match previous with
  | none => 0
  | some prev =>
      if 0 < prev.play_count then
        ((current.play_count : ℚ) - (prev.play_count : ℚ)) / (prev.play_count : ℚ) * 100
      else
        min 100 (max (-100) (((prev.rank : ℚ) - (current.rank : ℚ)) * 10))

/-!
Section: pipeline orchestrator (src/src/worker/ai-tagger.ts, lines 566-751).

`runPipeline` acquires trends (via `scrapeTikTokTrends`, which never
rejects, so the acquired batch is injected as a plain list), normalizes
them, batch-loads history and existing tags (each a single query that can
reject), walks the batch computing growth and invoking the tagger under a
per-run quota, and commits one atomic `DB.batch` (which can reject).
`tagAudioWithAI` catches its own errors and always resolves with a
`TagResult`, so it is injected as a total function.  `maybeIngestHashtags`
catches internally and cannot affect the returned status, so it is not
modelled.  Rejections are modelled in `Except String`; the source has NO
try/catch around the map loads or the batch, so their errors propagate out
of `runPipeline`.
-/

structure TagResult where
  genre : String
  vibe : String
deriving Repr, DecidableEq

/-- Model of `shouldTag` (ai-tagger.ts, lines 741-745).  JS nuance: `!genre`
is true for `null`/`undefined` AND for the empty string, so a present but
empty tag also counts as missing. -/
def shouldTag (genre vibe : Option String) : Bool :=
  ((match genre with
    | none => true
    | some g => g == "" || g == "unknown") ||
   (match vibe with
    | none => true
    | some v => v == "" || v == "mixed"))

/-- Model of `parseTagLimit` (ai-tagger.ts, lines 747-751).  The JS applies
`Number(value ?? "15")` to the `AI_TAG_LIMIT` env string; the string→number
step is abstracted: `none` models an unset variable (`Number("15") = 15`),
`some none` a set string that parses to NaN (not finite → default 15), and
`some (some n)` one that parses to the integer `n` (`n <= 0` → default 15,
otherwise capped at 50). -/
def parseTagLimit : Option (Option Int) → Nat
  | none => 15
  | some none => 15
  | some (some n) => if n ≤ 0 then 15 else min n.toNat 50

/-- Genre of the batch-loaded existing tags for an id
(`existingTags?.genre ?? null`). -/
def existingGenre (tagMap : String → Option (Option String × Option String))
    (id : String) : Option String :=
  match tagMap id with
  | none => none
  | some p => p.1

/-- Vibe of the batch-loaded existing tags for an id
(`existingTags?.vibe ?? null`). -/
def existingVibe (tagMap : String → Option (Option String × Option String))
    (id : String) : Option String :=
  match tagMap id with
  | none => none
  | some p => p.2

/-- Tagging eligibility of one item given the loaded tag map. -/
def needsTag (tagMap : String → Option (Option String × Option String))
    (item : TrendItem) : Bool :=
  shouldTag (existingGenre tagMap item.id) (existingVibe tagMap item.id)

/-- One row enqueued by the pipeline loop for an item: the computed growth,
the tags that will be written, and whether the tagger was invoked for it. -/
structure TagRow where
  item : TrendItem
  growth_rate : ℚ
  genre : Option String
  vibe : Option String
  fresh : Bool
deriving Repr, DecidableEq

/-- Model of the `for (const item of normalized)` loop of `runPipeline`
(ai-tagger.ts, lines 618-667): per item, compute growth from the loaded
history, then invoke the tagger exactly when
`shouldTag(genre, vibe) && tagsGenerated < maxTags`, consuming one quota
unit per invocation regardless of the tagger's internal outcome
(`tagAudioWithAI` never rejects). -/
def tagLoop (aiTags : String → String → TagResult)
    (historyMap : String → Option HistoryRow)
    (tagMap : String → Option (Option String × Option String))
    (maxTags : Nat) : List TrendItem → Nat → List TagRow
  | [], _ => []
  | item :: rest, tagsGenerated =>
      let genre := existingGenre tagMap item.id
      let vibe := existingVibe tagMap item.id
      let growth := calculateGrowthRate item (historyMap item.id)
      if shouldTag genre vibe && decide (tagsGenerated < maxTags) then
        ⟨item, growth, some (aiTags item.title item.author).genre,
          some (aiTags item.title item.author).vibe, true⟩ ::
          tagLoop aiTags historyMap tagMap maxTags rest (tagsGenerated + 1)
      else
        ⟨item, growth, genre, vibe, false⟩ ::
          tagLoop aiTags historyMap tagMap maxTags rest tagsGenerated

inductive PipelineStatus where
  | success
  | warning
  | error
deriving Repr, DecidableEq

inductive SourceTag where
  | puppeteer
  | proxyGrid
  | stale
deriving Repr, DecidableEq

/-- Model of the fields of `PipelineResult` that the worker consumes
(`hashtag_ingest`, `message` and `duration` are reporting-only). -/
structure PipelineResult where
  status : PipelineStatus
  count : Nat
  top_song : Option String
  tags_generated : Nat
  source : Option SourceTag
deriving Repr, DecidableEq

structure PipelineOptions where
  forceProxyGrid : Bool := false
  useStaleFallback : Bool := false

/-- Injectable dependencies of `runPipeline`: the acquired batch (the
scraper never rejects), the two batch loads and the final atomic batch
(each of which CAN reject, `Except.error` modelling a thrown promise
rejection), the tagger (total), and the `AI_TAG_LIMIT` env variable. -/
structure PipelineDeps where
  scraped : List TrendItem
  historyLoad : Except String (String → Option HistoryRow)
  tagLoad : Except String (String → Option (Option String × Option String))
  aiTags : String → String → TagResult
  batchResult : Except String Unit
  aiTagLimit : Option (Option Int)

/-- Model of `runPipeline` (ai-tagger.ts, lines 566-682).  Note that there
is no catch around `historyLoad`, `tagLoad` or `batchResult`: their errors
propagate to the caller, and no `status: "error"` result is ever built. -/
def runPipeline (deps : PipelineDeps) (opts : PipelineOptions) :
    Except String PipelineResult :=
  let trends := deps.scraped
  if trends.length = 0 then
    .ok ⟨.warning, 0, none, 0, some .stale⟩
  else
    let normalized := normalizeTrends trends
    if normalized.length = 0 then
      .ok ⟨.warning, 0, none, 0, some .puppeteer⟩
    else
      match deps.historyLoad with
      | .error e => .error e
      | .ok historyMap =>
          match deps.tagLoad with
          | .error e => .error e
          | .ok tagMap =>
              let maxTags := parseTagLimit deps.aiTagLimit
              let rows := tagLoop deps.aiTags historyMap tagMap maxTags normalized 0
              match deps.batchResult with
              | .error e => .error e
              | .ok _ =>
                  .ok ⟨.success, normalized.length,
                    (match normalized.head? with
                     | some it => some it.title
                     | none => none),
                    rows.countP (fun r => r.fresh),
                    some (if opts.forceProxyGrid then .proxyGrid else .puppeteer)⟩

/-- Constant tagger used in concrete runs. -/
def constAi : String → String → TagResult := fun _ _ => ⟨"pop", "chill"⟩

/-- Five items with distinct ids and ranks 1..5, all missing tags. -/
def fiveItems : List TrendItem :=
  [⟨"i1", 1, "t1", "a1", 10, ""⟩, ⟨"i2", 2, "t2", "a2", 20, ""⟩,
   ⟨"i3", 3, "t3", "a3", 30, ""⟩, ⟨"i4", 4, "t4", "a4", 40, ""⟩,
   ⟨"i5", 5, "t5", "a5", 50, ""⟩]

/-- Pipeline dependencies for the tag-quota example: 5 untagged items,
`AI_TAG_LIMIT` parsing to 2, everything resolving. -/
def fiveDeps : PipelineDeps where
  scraped := fiveItems
  historyLoad := .ok fun _ => none
  tagLoad := .ok fun _ => none
  aiTags := constAi
  batchResult := .ok ()
  aiTagLimit := some (some 2)

/-- Pipeline dependencies whose persistence batch rejects. -/
def batchFailDeps : PipelineDeps where
  scraped := [⟨"a", 1, "t", "au", 100, ""⟩]
  historyLoad := .ok fun _ => none
  tagLoad := .ok fun _ => none
  aiTags := constAi
  batchResult := .error "batch failed"
  aiTagLimit := none

/-- Pipeline dependencies where every store operation resolves. -/
def goodDeps : PipelineDeps where
  scraped := [⟨"a", 1, "t", "au", 100, ""⟩]
  historyLoad := .ok fun _ => none
  tagLoad := .ok fun _ => none
  aiTags := constAi
  batchResult := .ok ()
  aiTagLimit := none

/-- Pipeline dependencies with an empty acquisition result. -/
def emptyScrapeDeps : PipelineDeps where
  scraped := []
  historyLoad := .ok fun _ => none
  tagLoad := .ok fun _ => none
  aiTags := constAi
  batchResult := .ok ()
  aiTagLimit := none

/-!
Section: response parsing (src/worker/tiktok.ts, lines 404-421, 570-662).

The regex machinery itself is not shallowly embeddable; each parser is
modelled over the structured content its regexes extract.  For
`parseTikTokResponse` the JSON records arrive with flexible key aliasing,
modelled as optional fields (`none` is an absent/null key; numeric values
are modelled as `Int`).  For `parseFallbackHtml` the two regex strategies
deliver match tuples: captured `music_id` digits, title/author text (the
escape-decoding of the source is an injective character-level rewrite and
is abstracted away), and — for `extractPlayCount` — the digits of a
`video_count`/`videoCnt` capture if one occurs in the snippet.
-/

def MAX_ITEMS : Nat := 50

/-- Model of one record of the proxy-grid JSON response, with the key
aliases read by `parseTikTokResponse`. -/
structure RawRecord where
  id : Option String := none
  music_id : Option String := none
  rank : Option Int := none
  title : Option String := none
  name : Option String := none
  author : Option String := none
  artist : Option String := none
  play_count : Option Int := none
  video_count : Option Int := none
  cover_url : Option String := none
  cover : Option String := none
deriving Repr, DecidableEq

/-- Loop body of `parseTikTokResponse` (tiktok.ts, lines 570-597): resolve
the id with fallback `tiktok-<index>`, dedupe on it, and take each field
through its alias chain with the documented default. -/
def parseTikTokResponseAux : List RawRecord → Nat → List String → List TrendItem
  | [], _, _ => []
  | r :: rest, index, seen =>
      let rid := r.id.getD (r.music_id.getD ("tiktok-" ++ toString index))
      if rid ∈ seen then parseTikTokResponseAux rest (index + 1) seen
      else
        { id := rid
          rank := r.rank.getD ((index : Int) + 1)
          title := r.title.getD (r.name.getD "Unknown")
          author := r.author.getD (r.artist.getD "Unknown")
          play_count := r.play_count.getD (r.video_count.getD 0)
          cover_url := r.cover_url.getD (r.cover.getD "") } ::
          parseTikTokResponseAux rest (index + 1) (rid :: seen)

/-- Model of `parseTikTokResponse`: the loop breaks once `MAX_ITEMS` items
have been collected, which equals truncating the full output. -/
def parseTikTokResponse (records : List RawRecord) : List TrendItem :=
  (parseTikTokResponseAux records 0 []).take MAX_ITEMS

/-- Model of `extractPlayCount` (tiktok.ts, lines 657-662): the digits of a
`video_count`/`videoCnt` capture (`\d+`, hence a natural number) or 0 when
no such capture exists. -/
def extractPlayCount : Option Nat → Int
  | some digits => (digits : Int)
  | none => 0

/-- One match of the inline-JSON regex of `parseFallbackHtml`: id digits,
decoded title/author text, and the `video_count` digits found in the
matched snippet (if any). -/
structure JsonMatch where
  music_id : String
  title : String
  author : String
  snippetVideoCount : Option Nat := none
deriving Repr, DecidableEq

/-- One match of the anchor-tag regex of `parseFallbackHtml`: id digits and
the link text. -/
structure LinkMatch where
  music_id : String
  text : String
deriving Repr, DecidableEq

/-- First strategy of `parseFallbackHtml` (tiktok.ts, lines 612-631):
dedupe by id, rank by output position, play count via `extractPlayCount`. -/
def parseFallbackJsonAux : List JsonMatch → Nat → List String → List TrendItem
  | [], _, _ => []
  | m :: rest, count, seen =>
      if m.music_id ∈ seen then parseFallbackJsonAux rest count seen
      else
        { id := m.music_id
          rank := (count : Int) + 1
          title := if m.title = "" then "Unknown" else m.title
          author := if m.author = "" then "Unknown" else m.author
          play_count := extractPlayCount m.snippetVideoCount
          cover_url := "" } ::
          parseFallbackJsonAux rest (count + 1) (m.music_id :: seen)

/-- Second strategy of `parseFallbackHtml` (tiktok.ts, lines 633-652):
anchor-tag matches, author always "Unknown", play count always 0. -/
def parseFallbackLinksAux : List LinkMatch → Nat → List String → List TrendItem
  | [], _, _ => []
  | m :: rest, count, seen =>
      if m.music_id ∈ seen then parseFallbackLinksAux rest count seen
      else
        { id := m.music_id
          rank := (count : Int) + 1
          title := if m.text = "" then "Unknown" else m.text
          author := "Unknown"
          play_count := 0
          cover_url := "" } ::
          parseFallbackLinksAux rest (count + 1) (m.music_id :: seen)

/-- Model of `parseFallbackHtml`: the anchor-tag strategy runs only when the
inline-JSON strategy produced nothing. -/
def parseFallbackHtml (jsonMatches : List JsonMatch)
    (linkMatches : List LinkMatch) : List TrendItem :=
  let items := (parseFallbackJsonAux jsonMatches 0 []).take MAX_ITEMS
  if items.length = 0 then (parseFallbackLinksAux linkMatches 0 []).take MAX_ITEMS
  else items

inductive CountSuffix where
  | K
  | M
  | B
deriving Repr, DecidableEq

/-- Model of the in-page `parseCount` (tiktok.ts, lines 412-421): the
cleaned string is abstracted to its `parseFloat` value (`none` models NaN,
in which case the source returns 0 before looking at any suffix) together
with which of the K/M/B suffixes the cleaned string ends with;
`Math.round x = ⌊x + 1/2⌋ = round x` on every rational. -/
def parseCount (number : Option ℚ) (suffix : Option CountSuffix) : Int :=
  match number with
  | none => 0
  | some x =>
      match suffix with
      | some .K => round (x * 1000)
      | some .M => round (x * 1000000)
      | some .B => round (x * 1000000000)
      | none => round x

/-- Record whose structured `play_count` value is negative. -/
def negRecord : RawRecord := { play_count := some (-5) }

/-! # Theorems -/

lemma reRank_length (l : List TrendItem) : (reRank l).length = l.length := by
  simp [reRank, List.enum_length]

lemma reRank_rank (l : List TrendItem) (i : Nat) (h : i < (reRank l).length) :
    ((reRank l).get ⟨i, h⟩).rank = (i : Int) + 1 := by
  have hi : i < l.length := by simpa [reRank_length] using h
  simp [reRank, List.getElem_map, List.getElem_enum]

lemma reRank_map_id (l : List TrendItem) :
    (reRank l).map (fun it => it.id) = l.map (fun it => it.id) := by
  conv_rhs => rw [← List.enum_map_snd l, List.map_map]
  rw [reRank, List.map_map]
  rfl

lemma dedupeById_ids_nodup (l : List TrendItem) (seen : List String) :
    ((dedupeById l seen).map (fun it => it.id)).Nodup ∧
      ∀ s ∈ (dedupeById l seen).map (fun it => it.id), s ∉ seen := by
  induction l generalizing seen with
  | nil => simp [dedupeById]
  | cons item rest ih =>
      by_cases hmem : item.id ∈ seen
      · have := ih seen
        simpa [dedupeById, hmem] using this
      · have ihx := ih (item.id :: seen)
        constructor
        · simp only [dedupeById, hmem, if_false, List.map_cons, List.nodup_cons]
          refine ⟨?_, ihx.1⟩
          intro hc
          exact (ihx.2 _ hc) (List.mem_cons_self _ _)
        · intro s hs hseen
          simp only [dedupeById, hmem, if_false, List.map_cons, List.mem_cons] at hs
          rcases hs with rfl | hs
          · exact hmem hseen
          · exact (ihx.2 _ hs) (List.mem_cons_of_mem _ hseen)

lemma normalizeTrends_ids_nodup (l : List TrendItem) :
    ((normalizeTrends l).map (fun it => it.id)).Nodup := by
  have hded : ((dedupeById l []).map (fun it => it.id)).Nodup :=
    (dedupeById_ids_nodup l []).1
  have hperm : ((dedupeById l []).insertionSort rankLE).Perm (dedupeById l []) :=
    List.perm_insertionSort rankLE _
  have hsortnd : (((dedupeById l []).insertionSort rankLE).map (fun it => it.id)).Nodup :=
    ((hperm.map (fun it => it.id)).nodup_iff).mpr hded
  have htake :
      ((((dedupeById l []).insertionSort rankLE).take 50).map (fun it => it.id)).Nodup := by
    refine List.Nodup.sublist ?_ hsortnd
    exact (List.take_sublist 50 _).map _
  rw [normalizeTrends, reRank_map_id]
  exact htake

lemma normalizeTrends_length (l : List TrendItem) :
    (normalizeTrends l).length = min (dedupeById l []).length 50 := by
  have hperm : ((dedupeById l []).insertionSort rankLE).Perm (dedupeById l []) :=
    List.perm_insertionSort rankLE _
  have hlen : ((dedupeById l []).insertionSort rankLE).length = (dedupeById l []).length :=
    hperm.length_eq
  rw [normalizeTrends, reRank_length, List.length_take, hlen, Nat.min_comm]

/-- C1: for every input list, normalization dedupes by id (first occurrence
wins, so the surviving ids are pairwise distinct), truncates to at most 50
items (the output length is the deduplicated count capped at 50), and
re-ranks the result densely `1..N`; on the spec's concrete example
`[{a,rank 3,100}, {b,rank 1,50}, {a,rank 3,100}]` the normalized batch is
`[{b,rank 1}, {a,rank 2}]` (sorted by original rank, deduped, re-ranked)
with count 2. -/
theorem normalizeTrends_correct :
    (∀ l : List TrendItem, ∀ i : Nat, ∀ h : i < (normalizeTrends l).length,
        ((normalizeTrends l).get ⟨i, h⟩).rank = (i : Int) + 1) ∧
    (∀ l : List TrendItem, ((normalizeTrends l).map (fun it => it.id)).Nodup) ∧
    (∀ l : List TrendItem,
        (normalizeTrends l).length = min (dedupeById l []).length 50) ∧
    normalizeTrends
        [⟨"a", 3, "", "", 100, ""⟩, ⟨"b", 1, "", "", 50, ""⟩, ⟨"a", 3, "", "", 100, ""⟩] =
      [⟨"b", 1, "", "", 50, ""⟩, ⟨"a", 2, "", "", 100, ""⟩] ∧
    (normalizeTrends
        [⟨"a", 3, "", "", 100, ""⟩, ⟨"b", 1, "", "", 50, ""⟩, ⟨"a", 3, "", "", 100, ""⟩]).length = 2 := by
  refine ⟨?_, normalizeTrends_ids_nodup, normalizeTrends_length, by decide, by decide⟩
  intro l i h
  exact reRank_rank _ i h

theorem normalizeTrends_correct_witness :
    ((normalizeTrends
        [⟨"a", 3, "", "", 100, ""⟩, ⟨"b", 1, "", "", 50, ""⟩,
         ⟨"a", 3, "", "", 100, ""⟩]).get ⟨0, by decide⟩).rank = (0 : Int) + 1 :=
  normalizeTrends_correct.1
    [⟨"a", 3, "", "", 100, ""⟩, ⟨"b", 1, "", "", 50, ""⟩, ⟨"a", 3, "", "", 100, ""⟩]
    0 (by decide)

/-- C2: with threshold 5, starting from a closed breaker with
`failureCount = 0`, five consecutive `recordFailure` calls open the breaker
(with `nextAttemptTime` set `CIRCUIT_TIMEOUT` after the fifth failure);
`canExecute` then returns false while `now` is before `nextAttemptTime` and
true once `now` reaches it; a single `recordSuccess` resets `failureCount`
to 0 and `isOpen` to false. -/
theorem circuitBreaker_threshold_and_reset
    (b : CircuitBreakerState) (t1 t2 t3 t4 t5 n1 n2 : Nat)
    (hopen : b.isOpen = false) (hcount : b.failureCount = 0)
    (h1 : n1 < (fiveFailures b t1 t2 t3 t4 t5).nextAttemptTime)
    (h2 : (fiveFailures b t1 t2 t3 t4 t5).nextAttemptTime ≤ n2) :
    (fiveFailures b t1 t2 t3 t4 t5).isOpen = true ∧
    (fiveFailures b t1 t2 t3 t4 t5).nextAttemptTime = t5 + CIRCUIT_TIMEOUT ∧
    (canExecuteCircuit (fiveFailures b t1 t2 t3 t4 t5) n1).1 = false ∧
    (canExecuteCircuit (fiveFailures b t1 t2 t3 t4 t5) n2).1 = true ∧
    (recordCircuitSuccess (fiveFailures b t1 t2 t3 t4 t5)).failureCount = 0 ∧
    (recordCircuitSuccess (fiveFailures b t1 t2 t3 t4 t5)).isOpen = false := by
  obtain ⟨o, fc, lt, nt⟩ := b
  simp only [CircuitBreakerState.mk.injEq] at hopen hcount
  subst hopen hcount
  have hb : fiveFailures ⟨false, 0, lt, nt⟩ t1 t2 t3 t4 t5 =
      ⟨true, 5, t5, t5 + CIRCUIT_TIMEOUT⟩ := by
    simp [fiveFailures, recordCircuitFailure, CIRCUIT_THRESHOLD]
  rw [hb] at h1 h2 ⊢
  refine ⟨rfl, rfl, ?_, ?_, rfl, rfl⟩
  · simp only [canExecuteCircuit]
    simp [Nat.not_le.mpr h1]
  · simp only [canExecuteCircuit]
    simp [h2]

theorem circuitBreaker_threshold_and_reset_witness :
    (fiveFailures ⟨false, 0, 0, 0⟩ 0 0 0 0 0).isOpen = true ∧
    (fiveFailures ⟨false, 0, 0, 0⟩ 0 0 0 0 0).nextAttemptTime = 0 + CIRCUIT_TIMEOUT ∧
    (canExecuteCircuit (fiveFailures ⟨false, 0, 0, 0⟩ 0 0 0 0 0) 5).1 = false ∧
    (canExecuteCircuit (fiveFailures ⟨false, 0, 0, 0⟩ 0 0 0 0 0) 300000).1 = true ∧
    (recordCircuitSuccess (fiveFailures ⟨false, 0, 0, 0⟩ 0 0 0 0 0)).failureCount = 0 ∧
    (recordCircuitSuccess (fiveFailures ⟨false, 0, 0, 0⟩ 0 0 0 0 0)).isOpen = false :=
  circuitBreaker_threshold_and_reset ⟨false, 0, 0, 0⟩ 0 0 0 0 0 5 300000
    rfl rfl (by decide) (by decide)

/-- C3 counterexample: open the breaker with five failures at time 0, let the
timeout elapse (`now = 300000`): the probe call is allowed through, but a
single subsequent `recordFailure` leaves the breaker CLOSED
(`isOpen = false`, `failureCount = 1`) — contradicting the claim that one
probe failure re-opens it immediately. -/
theorem circuitBreaker_probe_failure_counterexample :
    (fiveFailures ⟨false, 0, 0, 0⟩ 0 0 0 0 0).isOpen = true ∧
    (canExecuteCircuit (fiveFailures ⟨false, 0, 0, 0⟩ 0 0 0 0 0) 300000).1 = true ∧
    (recordCircuitFailure
        (canExecuteCircuit (fiveFailures ⟨false, 0, 0, 0⟩ 0 0 0 0 0) 300000).2
        300001).isOpen = false ∧
    (recordCircuitFailure
        (canExecuteCircuit (fiveFailures ⟨false, 0, 0, 0⟩ 0 0 0 0 0) 300000).2
        300001).failureCount = 1 := by
  decide

/-- C3 amended: after the breaker has opened and its timeout has elapsed, the
next call is allowed through, and the allow-check itself fully closes the
breaker (`isOpen = false`, `failureCount = 0`); a single `recordFailure`
after the probe does NOT re-open the breaker — it merely sets
`failureCount = 1` with `isOpen` still false (five consecutive failures are
needed to re-open). -/
theorem circuitBreaker_halfopen_closes_fully
    (b : CircuitBreakerState) (now now2 : Nat)
    (hopen : b.isOpen = true) (helapsed : b.nextAttemptTime ≤ now) :
    (canExecuteCircuit b now).1 = true ∧
    (canExecuteCircuit b now).2.isOpen = false ∧
    (canExecuteCircuit b now).2.failureCount = 0 ∧
    (recordCircuitFailure (canExecuteCircuit b now).2 now2).isOpen = false ∧
    (recordCircuitFailure (canExecuteCircuit b now).2 now2).failureCount = 1 := by
  have hc : canExecuteCircuit b now =
      (true, { b with isOpen := false, failureCount := 0 }) := by
    simp [canExecuteCircuit, hopen, helapsed]
  rw [hc]
  refine ⟨rfl, rfl, rfl, ?_, ?_⟩ <;>
    simp [recordCircuitFailure, CIRCUIT_THRESHOLD]

theorem circuitBreaker_halfopen_closes_fully_witness :
    (canExecuteCircuit ⟨true, 5, 0, 300000⟩ 300000).1 = true ∧
    (canExecuteCircuit ⟨true, 5, 0, 300000⟩ 300000).2.isOpen = false ∧
    (canExecuteCircuit ⟨true, 5, 0, 300000⟩ 300000).2.failureCount = 0 ∧
    (recordCircuitFailure (canExecuteCircuit ⟨true, 5, 0, 300000⟩ 300000).2
        300001).isOpen = false ∧
    (recordCircuitFailure (canExecuteCircuit ⟨true, 5, 0, 300000⟩ 300000).2
        300001).failureCount = 1 :=
  circuitBreaker_halfopen_closes_fully ⟨true, 5, 0, 300000⟩ 300000 300001
    rfl (by decide)

/-- C4 counterexample: with every primary attempt resolving to an EMPTY
result (input `mixedPrimaryEnv false false false`, time 0, fresh breakers),
the orchestrator records NO failure on the primary breaker and sleeps NO
backoff delay (failureCount stays 0, sleep log empty) — whereas the claim
predicts one recorded failure and one backoff sleep per empty attempt, as
for thrown attempts (shown for contrast: three thrown attempts yield
failureCount 3 and two backoff sleeps). -/
theorem scrape_empty_attempts_counterexample :
    (scrapeTikTokTrends (mixedPrimaryEnv false false false) {} 0
        freshBreaker freshBreaker).puppeteerBreaker.failureCount = 0 ∧
    (scrapeTikTokTrends (mixedPrimaryEnv false false false) {} 0
        freshBreaker freshBreaker).sleeps = [] ∧
    (scrapeTikTokTrends (mixedPrimaryEnv true true true) {} 0
        freshBreaker freshBreaker).puppeteerBreaker.failureCount = 3 ∧
    (scrapeTikTokTrends (mixedPrimaryEnv true true true) {} 0
        freshBreaker freshBreaker).sleeps =
      [calculateRetryDelay 0, calculateRetryDelay 1] := by
  decide

/-- C4 amended: during primary acquisition, only attempts that THROW record
a failure on the primary breaker and sleep the exponential backoff delay
(the sleep skipped after the final attempt); attempts that return an empty
result record no failure and trigger no sleep — the loop just proceeds to
the next attempt.  Stated for every mix of thrown/empty attempts (`bi` true
means attempt `i` throws) and every clock value. -/
theorem scrape_primary_failure_accounting (b1 b2 b3 : Bool) (now : Nat) :
    (scrapeTikTokTrends (mixedPrimaryEnv b1 b2 b3) {} now
        freshBreaker freshBreaker).items = [] ∧
    (scrapeTikTokTrends (mixedPrimaryEnv b1 b2 b3) {} now
        freshBreaker freshBreaker).puppeteerBreaker.failureCount =
      ((if b1 then 1 else 0) + (if b2 then 1 else 0) + (if b3 then 1 else 0)) ∧
    (scrapeTikTokTrends (mixedPrimaryEnv b1 b2 b3) {} now
        freshBreaker freshBreaker).sleeps =
      ((if b1 then [calculateRetryDelay 0] else []) ++
        (if b2 then [calculateRetryDelay 1] else [])) := by
  cases b1 <;> cases b2 <;> cases b3 <;> exact ⟨rfl, rfl, rfl⟩

lemma reRank_map_rank (l : List TrendItem) :
    (reRank l).map (fun it => it.rank) =
      (List.range l.length).map (fun (i : Nat) => (i : Int) + 1) := by
  rw [reRank, List.map_map, List.enum_eq_zip_range]
  have hfst : List.map Prod.fst ((List.range l.length).zip l) = List.range l.length :=
    List.map_fst_zip _ _ (by simp)
  calc List.map
        ((fun it => it.rank) ∘ fun p => { p.2 with rank := (p.1 : Int) + 1 })
        ((List.range l.length).zip l)
      = List.map ((fun (i : Nat) => (i : Int) + 1) ∘
          (Prod.fst : Nat × TrendItem → Nat)) ((List.range l.length).zip l) := rfl
    _ = List.map (fun (i : Nat) => (i : Int) + 1)
        (List.map Prod.fst ((List.range l.length).zip l)) := by
        rw [List.map_map]
    _ = (List.range l.length).map (fun (i : Nat) => (i : Int) + 1) := by rw [hfst]

/-- C5: with both breakers starting closed (failure count 0), the primary
source throwing on all three retry attempts, the proxy-grid source
configured but throwing on its single attempt, and the stale store holding
10 items, `scrapeTikTokTrends` returns exactly those 10 stale items with
ranks reassigned 1..10 by array order. -/
theorem scrape_stale_fallback_ordering
    (stale : List TrendItem) (now : Nat) (pB proxB : CircuitBreakerState)
    (hlen : stale.length = 10)
    (hpo : pB.isOpen = false) (hpc : pB.failureCount = 0)
    (hqo : proxB.isOpen = false) (hqc : proxB.failureCount = 0) :
    (scrapeTikTokTrends (allFailEnv stale) {} now pB proxB).items = reRank stale ∧
    ((scrapeTikTokTrends (allFailEnv stale) {} now pB proxB).items.map
        (fun it => it.rank)) = (List.range 10).map (fun (i : Nat) => (i : Int) + 1) := by
  obtain ⟨po, pf, plt, pnt⟩ := pB
  obtain ⟨qo, qf, qlt, qnt⟩ := proxB
  simp only at hpo hpc hqo hqc
  subst hpo hpc hqo hqc
  have h0 : 0 < stale.length := by omega
  have hitems :
      (scrapeTikTokTrends (allFailEnv stale) {} now
        ⟨false, 0, plt, pnt⟩ ⟨false, 0, qlt, qnt⟩).items = reRank stale := by
    have hcond : ¬(0 < (allFailEnv stale).staleData.length ∧
        (({} : ScrapeOptions).useStaleFallback) = true) := by
      simp [allFailEnv]
    rw [scrapeTikTokTrends, if_neg hcond]
    have hce : canExecuteCircuit ⟨false, 0, plt, pnt⟩ now =
        (true, ⟨false, 0, plt, pnt⟩) := rfl
    have hpa : primaryAttempts (allFailEnv stale) now ⟨false, 0, plt, pnt⟩ =
        (none, ⟨false, 3, now, pnt⟩, [1000, 2000]) := rfl
    simp only [hce]
    norm_num
    rw [hpa]
    have hqe : canExecuteCircuit ⟨false, 0, qlt, qnt⟩ now =
        (true, ⟨false, 0, qlt, qnt⟩) := rfl
    simp [scrapeWithProxyGridFallback, allFailEnv, hqe, h0]
  refine ⟨hitems, ?_⟩
  rw [hitems, reRank_map_rank, hlen]

theorem scrape_stale_fallback_ordering_witness :
    (scrapeTikTokTrends (allFailEnv staleTen) {} 0
        freshBreaker freshBreaker).items = reRank staleTen ∧
    ((scrapeTikTokTrends (allFailEnv staleTen) {} 0
        freshBreaker freshBreaker).items.map (fun it => it.rank)) =
      (List.range 10).map (fun (i : Nat) => (i : Int) + 1) :=
  scrape_stale_fallback_ordering staleTen 0 freshBreaker freshBreaker
    (by decide) rfl rfl rfl rfl

/-- C8: the growth calculator returns 0 when no previous snapshot exists;
with previous play count 1000 and current 1500 it returns exactly 50
(positive, proportional to the 50 percent increase); with current 500 it
returns -50 (negative). -/
theorem calculateGrowthRate_signs :
    calculateGrowthRate ⟨"x", 1, "t", "a", 1500, ""⟩ none = 0 ∧
    calculateGrowthRate ⟨"x", 1, "t", "a", 1500, ""⟩ (some ⟨"x", 1000, 2, 0⟩) = 50 ∧
    0 < calculateGrowthRate ⟨"x", 1, "t", "a", 1500, ""⟩ (some ⟨"x", 1000, 2, 0⟩) ∧
    calculateGrowthRate ⟨"x", 1, "t", "a", 500, ""⟩ (some ⟨"x", 1000, 2, 0⟩) = -50 ∧
    calculateGrowthRate ⟨"x", 1, "t", "a", 500, ""⟩ (some ⟨"x", 1000, 2, 0⟩) < 0 := by
  refine ⟨rfl, ?_, ?_, ?_, ?_⟩ <;> norm_num [calculateGrowthRate]

/-- C7 counterexample: with a non-empty acquired batch and a persistence
batch that rejects, `runPipeline` rejects with that very error instead of
returning a result object — refuting the claim that it never throws for any
behaviour of its dependencies. -/
theorem runPipeline_batch_throw_counterexample :
    runPipeline batchFailDeps {} = Except.error "batch failed" := rfl

/-- C7 amended: `runPipeline` returns a result object (never throws) for
every acquisition outcome — in particular an empty acquisition yields the
warning result with count 0 — and for arbitrary tagger behaviour; but when
one of the persistence-store operations (the two batch loads or the final
atomic batch) throws, the exception propagates to the caller (there is no
error-status return path). -/
theorem runPipeline_returns_result_unless_store_throws :
    (∀ (deps : PipelineDeps) (opts : PipelineOptions), deps.scraped = [] →
        runPipeline deps opts =
          Except.ok ⟨.warning, 0, none, 0, some .stale⟩) ∧
    (∀ (deps : PipelineDeps) (opts : PipelineOptions)
        (hm : String → Option HistoryRow)
        (tm : String → Option (Option String × Option String)),
        deps.historyLoad = .ok hm → deps.tagLoad = .ok tm →
        deps.batchResult = .ok () →
        (runPipeline deps opts).toOption.isSome = true) := by
  constructor
  · intro deps opts hempty
    simp [runPipeline, hempty]
  · intro deps opts hm tm h1 h2 h3
    by_cases hz : deps.scraped.length = 0
    · simp [runPipeline, hz, Except.toOption]
    · by_cases hn : (normalizeTrends deps.scraped).length = 0
      · simp [runPipeline, hz, hn, Except.toOption]
      · simp [runPipeline, hz, hn, h1, h2, h3, Except.toOption]

theorem runPipeline_returns_result_unless_store_throws_witness :
    runPipeline emptyScrapeDeps {} =
      Except.ok ⟨.warning, 0, none, 0, some .stale⟩ ∧
    (runPipeline goodDeps {}).toOption.isSome = true :=
  ⟨runPipeline_returns_result_unless_store_throws.1 emptyScrapeDeps {} rfl,
   runPipeline_returns_result_unless_store_throws.2 goodDeps {}
     (fun _ => none) (fun _ => none) rfl rfl rfl⟩

/-- C10: whenever `runPipeline` returns a success-status result, its
`source` field is determined solely by the `forceProxyGrid` option
("proxy-grid" when set, otherwise "puppeteer"), independently of which
acquisition path actually produced the items (the acquired batch is
universally quantified inside `deps`); in particular it is never "stale" on
a success result. -/
theorem runPipeline_success_source
    (deps : PipelineDeps) (opts : PipelineOptions) (r : PipelineResult)
    (hok : runPipeline deps opts = Except.ok r) (hs : r.status = .success) :
    r.source = some (if opts.forceProxyGrid then SourceTag.proxyGrid
      else SourceTag.puppeteer) ∧
    r.source ≠ some SourceTag.stale := by
  by_cases hz : deps.scraped.length = 0
  · simp only [runPipeline, if_pos hz] at hok
    cases hok
    simp at hs
  · by_cases hn : (normalizeTrends deps.scraped).length = 0
    · simp only [runPipeline, if_neg hz, if_pos hn] at hok
      cases hok
      simp at hs
    · cases hhl : deps.historyLoad with
      | error e =>
          simp only [runPipeline, if_neg hz, if_neg hn, hhl] at hok
          exact Except.noConfusion hok
      | ok hm =>
          cases htl : deps.tagLoad with
          | error e =>
              simp only [runPipeline, if_neg hz, if_neg hn, hhl, htl] at hok
              exact Except.noConfusion hok
          | ok tm =>
              cases hbr : deps.batchResult with
              | error e =>
                  simp only [runPipeline, if_neg hz, if_neg hn, hhl, htl, hbr] at hok
                  exact Except.noConfusion hok
              | ok u =>
                  simp only [runPipeline, if_neg hz, if_neg hn, hhl, htl, hbr] at hok
                  cases hok
                  cases hfp : opts.forceProxyGrid <;> simp [hfp]

theorem runPipeline_success_source_witness :
    (⟨PipelineStatus.success, 1, some "t", 1, some SourceTag.puppeteer⟩ :
        PipelineResult).source =
      some (if ({} : PipelineOptions).forceProxyGrid then SourceTag.proxyGrid
        else SourceTag.puppeteer) ∧
    (⟨PipelineStatus.success, 1, some "t", 1, some SourceTag.puppeteer⟩ :
        PipelineResult).source ≠ some SourceTag.stale :=
  runPipeline_success_source goodDeps {}
    ⟨PipelineStatus.success, 1, some "t", 1, some SourceTag.puppeteer⟩ rfl rfl

lemma tagLoop_fresh_getq (aiT : String → String → TagResult)
    (hm : String → Option HistoryRow)
    (tm : String → Option (Option String × Option String)) (maxTags : Nat) :
    ∀ (items : List TrendItem) (n i : Nat),
      ((tagLoop aiT hm tm maxTags items n)[i]?.map (fun r => r.fresh)) =
        (items[i]?.map (fun it =>
          needsTag tm it &&
            decide (n + (items.take i).countP (needsTag tm) < maxTags))) := by
  intro items
  induction items with
  | nil => intro n i; simp [tagLoop]
  | cons item rest ih =>
      intro n i
      cases i with
      | zero =>
          cases hneed : shouldTag (existingGenre tm item.id) (existingVibe tm item.id) <;>
            by_cases hq : n < maxTags <;>
              simp [tagLoop, hneed, hq, needsTag]
      | succ i =>
          cases hneed : shouldTag (existingGenre tm item.id) (existingVibe tm item.id) with
          | false =>
              have hnit : needsTag tm item = false := hneed
              simp only [tagLoop, hneed, Bool.false_and, Bool.false_eq_true,
                if_false, List.getElem?_cons_succ]
              rw [ih n i]
              simp only [List.take_succ_cons, List.countP_cons, hnit,
                Bool.false_eq_true, if_false, Nat.add_zero]
          | true =>
              have hnit : needsTag tm item = true := hneed
              by_cases hq : n < maxTags
              · have hdq : decide (n < maxTags) = true := decide_eq_true hq
                simp only [tagLoop, hneed, hdq, Bool.and_self, if_true,
                  List.getElem?_cons_succ]
                rw [ih (n + 1) i]
                simp only [List.take_succ_cons, List.countP_cons, hnit, if_true]
                have hdec :
                    decide (n + 1 + (rest.take i).countP (needsTag tm) < maxTags) =
                      decide (n + ((rest.take i).countP (needsTag tm) + 1) < maxTags) := by
                  rw [decide_eq_decide]
                  omega
                simp only [hdec]
              · have hdq : decide (n < maxTags) = false := decide_eq_false hq
                simp only [tagLoop, hneed, hdq, Bool.and_false, Bool.false_eq_true,
                  if_false, List.getElem?_cons_succ]
                rw [ih n i]
                simp only [List.take_succ_cons, List.countP_cons, hnit, if_true]
                have hdec :
                    decide (n + (rest.take i).countP (needsTag tm) < maxTags) =
                      decide (n + ((rest.take i).countP (needsTag tm) + 1) < maxTags) := by
                  rw [decide_eq_decide]
                  omega
                simp only [hdec]

/-- C6: per item, the tagger is invoked if and only if the item still needs
a tag — its existing genre is missing/placeholder ("unknown"/empty) OR its
existing vibe is missing/placeholder ("mixed"/empty) — AND the number of
items tagged so far is below the per-run quota (so one quota unit is
consumed per tagged item, regardless of the tagger's internal outcome: the
tagger is total); the quota defaults to 15 and is hard-capped at 50; and
with a tag limit of 2 and 5 items all missing tags, exactly the first 2
items receive freshly assigned tags while the other 3 retain their prior
(here absent) tags, the pipeline reporting `tags_generated = 2`. -/
theorem runPipeline_tag_quota :
    (∀ (aiT : String → String → TagResult) (hm : String → Option HistoryRow)
        (tm : String → Option (Option String × Option String))
        (maxTags : Nat) (items : List TrendItem) (i : Nat),
        ((tagLoop aiT hm tm maxTags items 0)[i]?.map (fun r => r.fresh)) =
          (items[i]?.map (fun it =>
            needsTag tm it &&
              decide ((items.take i).countP (needsTag tm) < maxTags)))) ∧
    parseTagLimit none = 15 ∧
    (∀ v, parseTagLimit v ≤ 50) ∧
    ((tagLoop constAi (fun _ => none) (fun _ => none) 2 fiveItems 0).map
        (fun r => r.fresh)) = [true, true, false, false, false] ∧
    ((tagLoop constAi (fun _ => none) (fun _ => none) 2 fiveItems 0).map
        (fun r => (r.genre, r.vibe))) =
      [(some "pop", some "chill"), (some "pop", some "chill"),
       (none, none), (none, none), (none, none)] ∧
    (runPipeline fiveDeps {}).toOption.map (fun r => r.tags_generated) = some 2 := by
  refine ⟨?_, rfl, ?_, by decide, by decide, by decide⟩
  · intro aiT hm tm maxTags items i
    have h := tagLoop_fresh_getq aiT hm tm maxTags items 0 i
    simpa using h
  · intro v
    match v with
    | none => decide
    | some none => decide
    | some (some n) =>
        by_cases h : n ≤ 0
        · simp [parseTagLimit, h]
        · simp only [parseTagLimit, h, if_false]
          exact Nat.min_le_right _ _

/-- C9 counterexample: a structured-JSON record whose `play_count` value is
the (perfectly well-formed, non-missing) number -5 is passed through
unchanged by `parseTikTokResponse`, producing a `TrendItem` with a NEGATIVE
play count — refuting the claim that every parsed item has a non-negative
play count. -/
theorem parseTikTokResponse_negative_counterexample :
    (parseTikTokResponse [negRecord]).map (fun it => it.play_count) = [-5] ∧
    (-5 : Int) < 0 := by
  decide

lemma round_nonneg_rat (q : ℚ) (h : 0 ≤ q) : 0 ≤ round q := by
  rw [round_eq]
  refine Int.le_floor.mpr ?_
  push_cast
  linarith

lemma parseFallbackJsonAux_play_nonneg :
    ∀ (jm : List JsonMatch) (count : Nat) (seen : List String),
      ∀ it ∈ parseFallbackJsonAux jm count seen, 0 ≤ it.play_count := by
  intro jm
  induction jm with
  | nil =>
      intro count seen it hmem
      simp [parseFallbackJsonAux] at hmem
  | cons m rest ih =>
      intro count seen it hmem
      by_cases hdup : m.music_id ∈ seen
      · exact ih count seen it (by simpa [parseFallbackJsonAux, hdup] using hmem)
      · simp only [parseFallbackJsonAux, hdup, if_false, List.mem_cons] at hmem
        rcases hmem with rfl | hmem
        · show 0 ≤ extractPlayCount m.snippetVideoCount
          cases m.snippetVideoCount with
          | none => simp [extractPlayCount]
          | some d =>
              simp only [extractPlayCount]
              positivity
        · exact ih (count + 1) (m.music_id :: seen) it hmem

lemma parseFallbackLinksAux_play_nonneg :
    ∀ (lm : List LinkMatch) (count : Nat) (seen : List String),
      ∀ it ∈ parseFallbackLinksAux lm count seen, 0 ≤ it.play_count := by
  intro lm
  induction lm with
  | nil =>
      intro count seen it hmem
      simp [parseFallbackLinksAux] at hmem
  | cons m rest ih =>
      intro count seen it hmem
      by_cases hdup : m.music_id ∈ seen
      · exact ih count seen it (by simpa [parseFallbackLinksAux, hdup] using hmem)
      · simp only [parseFallbackLinksAux, hdup, if_false, List.mem_cons] at hmem
        rcases hmem with rfl | hmem
        · exact le_refl (0 : Int)
        · exact ih (count + 1) (m.music_id :: seen) it hmem

lemma parseTikTokResponseAux_play_nonneg :
    ∀ (recs : List RawRecord) (index : Nat) (seen : List String),
      (∀ r ∈ recs, 0 ≤ r.play_count.getD (r.video_count.getD 0)) →
      ∀ it ∈ parseTikTokResponseAux recs index seen, 0 ≤ it.play_count := by
  intro recs
  induction recs with
  | nil =>
      intro index seen hrecs it hmem
      simp [parseTikTokResponseAux] at hmem
  | cons r rest ih =>
      intro index seen hrecs it hmem
      have hr : 0 ≤ r.play_count.getD (r.video_count.getD 0) :=
        hrecs r (List.mem_cons_self _ _)
      have hrest : ∀ q ∈ rest, 0 ≤ q.play_count.getD (q.video_count.getD 0) :=
        fun q hq => hrecs q (List.mem_cons_of_mem _ hq)
      by_cases hdup :
          r.id.getD (r.music_id.getD ("tiktok-" ++ toString index)) ∈ seen
      · exact ih (index + 1) seen hrest it
          (by simpa [parseTikTokResponseAux, hdup] using hmem)
      · simp only [parseTikTokResponseAux, hdup, if_false, List.mem_cons] at hmem
        rcases hmem with rfl | hmem
        · exact hr
        · exact ih (index + 1) _ hrest it hmem

/-- C9 amended: play counts produced by the fallback-HTML parser (both the
inline-JSON strategy, whose counts come from `extractPlayCount` on captured
digits, and the anchor-tag strategy, whose counts are 0) are always
non-negative, with 0 as the missing-value default; the K/M/B decoder
returns 0 for an unparsable (NaN) number and a non-negative count for every
non-negative parsed number; but the structured-JSON parser
`parseTikTokResponse` simply passes the source's numeric value through
(with a 0 default only when both play-count aliases are absent), so its
output play counts are non-negative exactly when the source values are. -/
theorem playCount_nonneg_amended :
    (∀ (jm : List JsonMatch) (lm : List LinkMatch),
        ∀ it ∈ parseFallbackHtml jm lm, 0 ≤ it.play_count) ∧
    (extractPlayCount none = 0 ∧ ∀ d : Nat, 0 ≤ extractPlayCount (some d)) ∧
    (∀ s, parseCount none s = 0) ∧
    (∀ (x : ℚ) (s : Option CountSuffix), 0 ≤ x → 0 ≤ parseCount (some x) s) ∧
    (∀ recs : List RawRecord,
        (∀ r ∈ recs, 0 ≤ r.play_count.getD (r.video_count.getD 0)) →
        ∀ it ∈ parseTikTokResponse recs, 0 ≤ it.play_count) := by
  refine ⟨?_, ⟨rfl, ?_⟩, ?_, ?_, ?_⟩
  · intro jm lm it hmem
    simp only [parseFallbackHtml] at hmem
    by_cases hlen : ((parseFallbackJsonAux jm 0 []).take MAX_ITEMS).length = 0
    · rw [if_pos hlen] at hmem
      exact parseFallbackLinksAux_play_nonneg lm 0 [] it
        ((List.take_sublist _ _).subset hmem)
    · rw [if_neg hlen] at hmem
      exact parseFallbackJsonAux_play_nonneg jm 0 [] it
        ((List.take_sublist _ _).subset hmem)
  · intro d
    simp only [extractPlayCount]
    positivity
  · intro s
    rfl
  · intro x s hx
    cases s with
    | none =>
        simp only [parseCount]
        exact round_nonneg_rat x hx
    | some suf =>
        cases suf <;>
          · simp only [parseCount]
            exact round_nonneg_rat _ (by positivity)
  · intro recs h it hmem
    exact parseTikTokResponseAux_play_nonneg recs 0 [] h it
      ((List.take_sublist _ _).subset (by simpa [parseTikTokResponse] using hmem))

theorem playCount_nonneg_amended_witness :
    0 ≤ (⟨"123", 1, "T", "A", 7, ""⟩ : TrendItem).play_count ∧
    0 ≤ parseCount (some (3 / 2)) (some CountSuffix.K) ∧
    0 ≤ (⟨"tiktok-0", 1, "Unknown", "Unknown", 0, ""⟩ : TrendItem).play_count :=
  ⟨playCount_nonneg_amended.1 [⟨"123", "T", "A", some 7⟩] []
      ⟨"123", 1, "T", "A", 7, ""⟩ (by decide),
   playCount_nonneg_amended.2.2.2.1 (3 / 2) (some CountSuffix.K) (by norm_num),
   playCount_nonneg_amended.2.2.2.2 [{}] (by decide)
      ⟨"tiktok-0", 1, "Unknown", "Unknown", 0, ""⟩ (by decide)⟩
